import Mathlib

/-!
Verification of the AlgoFinance backend (Express/Alpaca/Gemini trading webhook
server) against its natural-language specification.

The development shallowly embeds the three near-duplicate server revisions:
* `server.js` — pre-trade AI gate policy, log capacity 200;
* the post-trade advisory revision — execute first, analyze after, capacity 200;
* the earlier gate revision — capacity 50.

Effectful JavaScript is modelled as pure functions producing an explicit trace
of observable events (console output, activity-log writes, adapter calls, the
HTTP response, and an uncaught TypeError).  External adapter outcomes (Gemini
text, Alpaca order/account/position results) are inputs to the model.
-/

namespace AlgoBackend

/-! ### JavaScript expression semantics used by the handlers -/

/-- Coercion of a possibly-undefined string into a template literal:
`undefined` prints as the text "undefined". -/
def jsStr : Option String → String
  | none => "undefined"
  | some s => s

/-- Model of ECMAScript String.prototype.toUpperCase restricted to the ASCII
data the server manipulates. -/
def jsUpper (s : String) : String := ⟨s.data.map Char.toUpper⟩

/-- Model of ECMAScript String.prototype.toLowerCase restricted to ASCII. -/
def jsLower (s : String) : String := ⟨s.data.map Char.toLower⟩

/-- Whitespace recognized by the trim model. -/
def jsSpaceChar (c : Char) : Bool := c == ' ' || c == '\t' || c == '\n' || c == '\r'

/-- Model of ECMAScript String.prototype.trim: strip leading and trailing
whitespace. -/
def jsTrim (s : String) : String :=
  ⟨((s.data.dropWhile jsSpaceChar).reverse.dropWhile jsSpaceChar).reverse⟩

/-- Does the second list occur at the very start of the first? -/
def subAt : List Char → List Char → Bool
  | [], _ => true
  | _ :: _, [] => false
  | a :: as, b :: bs => a == b && subAt as bs

/-- Does `sub` occur contiguously anywhere in the list? -/
def hasSub (sub : List Char) : List Char → Bool
  | [] => sub.isEmpty
  | c :: cs => subAt sub (c :: cs) || hasSub sub cs

/-- Model of ECMAScript String.prototype.includes (substring containment). -/
def jsIncludes (s sub : String) : Bool := hasSub sub.data s.data

/-- JavaScript truthiness of a possibly-undefined string field:
`undefined` and the empty string are falsy. -/
def jsTruthy : Option String → Bool
  | none => false
  | some s => !(s == "")

/-- The JavaScript expression `v || d` for a possibly-undefined numeric field:
`undefined` and `0` are falsy and select the fallback. -/
def jsOrInt : Option Int → Int → Int
  | none, d => d
  | some v, d => if v == 0 then d else v

/-! ### Activity log store (`addLog` in all three revisions) -/

/-- One activity-log entry.  `time` (the source's locale-formatted
`new Date().toLocaleTimeString()`) is abstracted to the raw clock reading used
for `id` (`Date.now()`), since both come from the same wall clock at insert. -/
structure LogEntry where
  id : Nat
  time : Nat
  type : String
  source : String
  message : String
deriving DecidableEq

/-- `addLog(type, source, message)` from the source, with the wall-clock
reading `Date.now()` passed explicitly as `now` and the hardcoded capacity a
parameter: `server.js` and the post-trade revision use 200, the earlier gate
revision uses 50.  It builds the entry, `unshift`s it to the front, and
`pop`s the last element when the length exceeds the capacity. -/
def addLogC (cap now : Nat) (type source message : String) (logs : List LogEntry) :
    List LogEntry :=
  let log : LogEntry := { id := now, time := now, type := type, source := source,
                          message := message }
  let logs' := log :: logs
  if logs'.length > cap then logs'.dropLast else logs'

/-- `addLog` as in `server.js` and the post-trade revision (capacity 200). -/
def addLog (now : Nat) (type source message : String) (logs : List LogEntry) :
    List LogEntry :=
  addLogC 200 now type source message logs

/-- `addLog` as in the earlier gate revision (capacity 50). -/
def addLog50 (now : Nat) (type source message : String) (logs : List LogEntry) :
    List LogEntry :=
  addLogC 50 now type source message logs

/-- Arguments of one `addLog` call together with the wall-clock reading
observed during that call. -/
structure LogInput where
  now : Nat
  type : String
  source : String
  message : String
deriving DecidableEq

/-- The entry that `addLog` constructs from one call's inputs. -/
def mkEntry (i : LogInput) : LogEntry :=
  { id := i.now, time := i.now, type := i.type, source := i.source, message := i.message }

/-- Run a sequence of `addLog` calls against an initially empty store. -/
def recordAll (cap : Nat) (ins : List LogInput) : List LogEntry :=
  ins.foldl (fun logs i => addLogC cap i.now i.type i.source i.message logs) []

/-! ### Inbound signals, orders and adapter outcomes -/

/-- The inbound TradingView signal (`req.body`): every field may be absent.
`price` is kept as its template-literal text; `contracts` as an integer. -/
structure Signal where
  ticker : Option String
  action : Option String
  price : Option String
  contracts : Option Int
deriving DecidableEq

/-- The order object passed to `alpaca.createOrder`. -/
structure Order where
  symbol : String
  qty : Int
  side : String
  type : String
  time_in_force : String
deriving DecidableEq

/-- Account snapshot fields the post-trade prompt reads. -/
structure Account where
  portfolio_value : String
  buying_power : String
deriving DecidableEq

/-- Position snapshot field the post-trade prompt reads. -/
structure Position where
  qty : Int
deriving DecidableEq

/-- Observable events of one webhook request, in program order.  `crash`
records an uncaught TypeError thrown outside the handler's try block (the
request then receives no response at all). -/
inductive Event where
  | consoleLog (message : String)
  | logEvent (type source message : String)
  | accountCall
  | positionCall
  | advisoryCall (prompt : String)
  | brokerageOrder (order : Order)
  | respond (status : Nat) (body : String)
  | crash (message : String)
deriving DecidableEq

/-- Outcomes of the external calls made by the pre-trade-gate handler
(`server.js`): the Gemini response text, and the Alpaca order result. -/
structure GateEnv where
  adviceResult : Except String String
  orderResult : Except String Unit

/-- Outcomes of the external calls made by the post-trade handler. -/
structure PostEnv where
  orderResult : Except String Unit
  accountResult : Except String Account
  positionResult : Except String Position
  adviceResult : Except String String

/-- Did the call fail (raise)? -/
def isErr {ε α : Type} : Except ε α → Bool
  | Except.error _ => true
  | Except.ok _ => false

/-- The risk-manager prompt of the gate revision (whitespace condensed). -/
def gatePrompt (signal : Signal) : String :=
  "Act as a financial risk manager. Signal: " ++ jsStr signal.action ++ " "
    ++ jsStr signal.ticker ++ " at " ++ jsStr signal.price
    ++ ". Task: Respond with strictly ONE word: APPROVE or DENY."

/-- The strategy prompt of the post-trade revision (whitespace condensed). -/
def postPrompt (side : String) (qty : Int) (ticker : String) (acc : Account)
    (posShares : Int) : String :=
  "I just executed a " ++ jsUpper side ++ " order for " ++ toString qty
    ++ " shares of " ++ ticker ++ ". Total Portfolio Value: " ++ acc.portfolio_value
    ++ ". Buying Power: " ++ acc.buying_power ++ ". Current Position in " ++ ticker
    ++ ": " ++ toString posShares ++ " shares."

/-- The `POST /webhook` handler of `server.js` (pre-trade gate policy) as an
event trace.  Note the `WEBHOOK` log line calls `signal.action.toUpperCase()`
before the validation check: when `action` is absent this throws a TypeError
outside the try block, so nothing is logged and no response is sent. -/
def webhookGate (env : GateEnv) (signal : Signal) : List Event :=
  let received := Event.consoleLog "Received Signal"
  match signal.action with
  | none => [received, Event.crash "TypeError: Cannot read properties of undefined"]
  | some act =>
    let webhookLog := Event.logEvent "WEBHOOK" "TradingView"
      (jsUpper act ++ " " ++ jsStr signal.ticker ++ " @ " ++ jsStr signal.price)
    if !(jsTruthy signal.ticker) || !(jsTruthy signal.action) then
      [received, webhookLog, Event.respond 400 "Invalid payload"]
    else
      let analyzing := Event.logEvent "AI_ANALYSIS" "Gemini Pro"
        ("Analyzing risk for " ++ jsStr signal.ticker ++ "...")
      let adv := Event.advisoryCall (gatePrompt signal)
      match env.adviceResult with
      | Except.error m =>
        [received, webhookLog, analyzing, adv,
         Event.consoleLog ("Error: " ++ m), Event.logEvent "ERROR" "System" m,
         Event.respond 500 m]
      | Except.ok txt =>
        let decision := jsUpper (jsTrim txt)
        let decisionLog := Event.logEvent "AI_ANALYSIS" "Gemini Pro"
          ("Decision: " ++ decision)
        if jsIncludes decision "DENY" then
          [received, webhookLog, analyzing, adv, decisionLog,
           Event.respond 200 "Trade Denied by AI"]
        else
          let side := jsLower act
          let qty := jsOrInt signal.contracts 1
          let order : Order := { symbol := jsStr signal.ticker, qty := qty, side := side,
                                 type := "market", time_in_force := "day" }
          match env.orderResult with
          | Except.error m =>
            [received, webhookLog, analyzing, adv, decisionLog,
             Event.brokerageOrder order,
             Event.consoleLog ("Error: " ++ m), Event.logEvent "ERROR" "System" m,
             Event.respond 500 m]
          | Except.ok _ =>
            [received, webhookLog, analyzing, adv, decisionLog,
             Event.brokerageOrder order,
             Event.logEvent "EXECUTION" "Alpaca"
               ("Filled: " ++ jsUpper side ++ " " ++ toString qty ++ " "
                 ++ jsStr signal.ticker),
             Event.respond 200 "Order Executed"]

/-- The detached async block of the post-trade handler: fetch account and
position, prompt Gemini, and log the advice; `getPosition` failures are
swallowed into a zero position, any other failure is caught and written only
to `console.error`. -/
def backgroundAdvisory (env : PostEnv) (signal : Signal) (side : String) (qty : Int) :
    List Event :=
  match env.accountResult with
  | Except.error _ => [Event.accountCall, Event.consoleLog "AI Analysis Failed:"]
  | Except.ok acc =>
    let posQty : Int := match env.positionResult with
      | Except.error _ => 0
      | Except.ok p => p.qty
    let prompt := postPrompt side qty (jsStr signal.ticker) acc
      (jsOrInt (some posQty) qty)
    match env.adviceResult with
    | Except.error _ =>
      [Event.accountCall, Event.positionCall, Event.advisoryCall prompt,
       Event.consoleLog "AI Analysis Failed:"]
    | Except.ok advice =>
      [Event.accountCall, Event.positionCall, Event.advisoryCall prompt,
       Event.logEvent "AI_STRATEGY" "Gemini Flash" advice]

/-- The `POST /webhook` handler of the post-trade revision (execute first,
analyze second) as an event trace.  The response is sent before the detached
advisory block runs; the same pre-validation TypeError as in the gate
revision applies when `action` is absent. -/
def webhookPost (env : PostEnv) (signal : Signal) : List Event :=
  let received := Event.consoleLog "Received Signal"
  match signal.action with
  | none => [received, Event.crash "TypeError: Cannot read properties of undefined"]
  | some act =>
    let webhookLog := Event.logEvent "WEBHOOK" "TradingView"
      (jsUpper act ++ " " ++ jsStr signal.ticker ++ " @ " ++ jsStr signal.price)
    if !(jsTruthy signal.ticker) || !(jsTruthy signal.action) then
      [received, webhookLog, Event.respond 400 "Invalid payload"]
    else
      let side := jsLower act
      let qty := jsOrInt signal.contracts 1
      let order : Order := { symbol := jsStr signal.ticker, qty := qty, side := side,
                             type := "market", time_in_force := "day" }
      match env.orderResult with
      | Except.error m =>
        [received, webhookLog, Event.brokerageOrder order,
         Event.consoleLog ("Error: " ++ m), Event.logEvent "ERROR" "System" m,
         Event.respond 500 m]
      | Except.ok _ =>
        [received, webhookLog, Event.brokerageOrder order,
         Event.logEvent "EXECUTION" "Alpaca"
           ("Filled: " ++ jsUpper side ++ " " ++ toString qty ++ " "
             ++ jsStr signal.ticker),
         Event.respond 200 "Order Executed"]
          ++ backgroundAdvisory env signal side qty

/-! ### Event predicates -/

/-- Is the event an activity-log write? -/
def isLogWrite : Event → Bool
  | Event.logEvent _ _ _ => true
  | _ => false

/-- Is the event an `EXECUTION` activity-log write? -/
def isExecutionLog : Event → Bool
  | Event.logEvent t _ _ => t == "EXECUTION"
  | _ => false

/-- Is the event an advisory (Gemini) call? -/
def isAdvisoryCall : Event → Bool
  | Event.advisoryCall _ => true
  | _ => false

/-- Is the event a brokerage order submission? -/
def isOrderCall : Event → Bool
  | Event.brokerageOrder _ => true
  | _ => false

/-- Is the event an HTTP response? -/
def isRespond : Event → Bool
  | Event.respond _ _ => true
  | _ => false

/-- Is the event an HTTP response with the given status? -/
def isRespondStatus (s : Nat) : Event → Bool
  | Event.respond s' _ => s' == s
  | _ => false

/-- Is the event a brokerage order submission with the given quantity? -/
def isOrderWithQty (q : Int) : Event → Bool
  | Event.brokerageOrder o => o.qty == q
  | _ => false

/-- `GET /api/history`: the formatting of the brokerage history arrays into
chart points, mapped over the `timestamp` array with `equity[i]` and
`profit_loss[i]` looked up by index (`none` models the JavaScript `undefined`
produced by an out-of-range index); the locale date formatting of
`new Date(t * 1000)` is abstracted to the parameter `fmt`. -/
structure HistoryPoint where
  date : String
  equity : Option Int
  profit_loss : Option Int
deriving DecidableEq

/-- The body of the `history.timestamp.map((t, i) => ...)` transformation in
the `GET /api/history` handler. -/
def getHistoryFormatted (fmt : Nat → String) (timestamp : List Nat)
    (equity profit_loss : List Int) : List HistoryPoint :=
  timestamp.enum.map fun p =>
    { date := fmt (p.2 * 1000), equity := equity[p.1]?, profit_loss := profit_loss[p.1]? }

/-! ### Theorems -/

theorem addLogC_take (cap : Nat) (i : LogInput) (l : List LogEntry) :
    addLogC cap i.now i.type i.source i.message (l.take cap) = (mkEntry i :: l).take cap := by
  simp only [addLogC, mkEntry]
  by_cases h : cap ≤ l.length
  · have hlen : (l.take cap).length = cap := by
      simp [List.length_take, Nat.min_eq_left h]
    rw [if_pos (by simp [hlen])]
    rw [List.dropLast_eq_take]
    simp only [List.length_cons, hlen, Nat.add_sub_cancel]
    cases cap with
    | zero => simp
    | succ k => simp [List.take_succ_cons, List.take_take, Nat.min_eq_left (Nat.le_succ k)]
  · push_neg at h
    rw [List.take_of_length_le (Nat.le_of_lt h)]
    rw [if_neg (by simp; omega)]
    rw [List.take_of_length_le (by simp; omega)]

theorem recordAll_foldl (cap : Nat) (ins : List LogInput) (l : List LogEntry) :
    List.foldl (fun logs i => addLogC cap i.now i.type i.source i.message logs)
        (l.take cap) ins
      = ((ins.map mkEntry).reverse ++ l).take cap := by
  induction ins generalizing l with
  | nil => simp
  | cons i ins ih =>
    rw [List.foldl_cons, addLogC_take cap i l, ih (mkEntry i :: l)]
    simp [List.reverse_cons, List.append_assoc]

/-- Structural characterization of the store: after any call sequence from
empty it holds exactly the most recent `cap` entries, most-recent-first. -/
theorem recordAll_eq (cap : Nat) (ins : List LogInput) :
    recordAll cap ins = ((ins.map mkEntry).reverse).take cap := by
  have h := recordAll_foldl cap ins []
  simpa [recordAll] using h

/-- C5: for every sequence of record calls, the store never exceeds the
configured capacity (200 in two revisions, 50 in the third — `cap` here), is
ordered most-recent-first with each new entry at the head, and after
capacity+1 insertions the oldest original entry has been evicted while the
newest is at the head. -/
theorem claim5_log_ring_buffer (cap : Nat) (hcap : 1 ≤ cap) (ins : List LogInput) :
    (recordAll cap ins).length ≤ cap
    ∧ recordAll cap ins = ((ins.map mkEntry).reverse).take cap
    ∧ (∀ i : LogInput, (recordAll cap (ins ++ [i])).head? = some (mkEntry i))
    ∧ (∀ i rest, ins = i :: rest → rest.length = cap →
        recordAll cap ins = (rest.map mkEntry).reverse
        ∧ (mkEntry i ∉ rest.map mkEntry → mkEntry i ∉ recordAll cap ins)) := by
  refine ⟨?_, recordAll_eq cap ins, ?_, ?_⟩
  · rw [recordAll_eq]
    simp [List.length_take]
  · intro i
    rw [recordAll_eq]
    obtain ⟨k, rfl⟩ : ∃ k, cap = k + 1 := ⟨cap - 1, by omega⟩
    simp [List.take_succ_cons]
  · intro i rest hins hlen
    subst hins
    have hrev : ((rest.map mkEntry).reverse).length = cap := by simp [hlen]
    have hchar : recordAll cap (i :: rest) = (rest.map mkEntry).reverse := by
      rw [recordAll_eq]
      simp only [List.map_cons, List.reverse_cons]
      rw [← hrev, List.take_left]
    refine ⟨hchar, fun hnot => ?_⟩
    rw [hchar]
    simpa [List.mem_reverse] using hnot

/-- Closed instance of C5 at the two configured capacities. -/
theorem claim5_log_ring_buffer_witness :
    (recordAll 200 [⟨1000, "WEBHOOK", "TradingView", "BUY AAPL @ 150"⟩]).length ≤ 200
    ∧ (recordAll 50 [⟨1000, "WEBHOOK", "TradingView", "BUY AAPL @ 150"⟩]).length ≤ 50 :=
  ⟨(claim5_log_ring_buffer 200 (by decide) [⟨1000, "WEBHOOK", "TradingView", "BUY AAPL @ 150"⟩]).1,
   (claim5_log_ring_buffer 50 (by decide) [⟨1000, "WEBHOOK", "TradingView", "BUY AAPL @ 150"⟩]).1⟩

/-- C9 counterexample: two consecutive record calls within the same
wall-clock millisecond (the norm for the back-to-back `addLog` calls inside
one webhook request) produce equal ids, so the later entry's id is not
strictly greater than the earlier one's. -/
theorem claim9_counterexample :
    (addLog 1000 "AI_ANALYSIS" "Gemini Pro" "Analyzing risk for AAPL..."
        (addLog 1000 "WEBHOOK" "TradingView" "BUY AAPL @ 150" [])).map LogEntry.id
      = [1000, 1000]
    ∧ ¬ ((1000 : Nat) > 1000) := by
  constructor
  · rfl
  · decide

/-- C9 amended: ids are exactly the wall-clock readings of the insertions
(most-recent-first); they are strictly increasing in creation order only when
the clock readings are strictly increasing, and inserts sharing a clock
millisecond share an id. -/
theorem claim9_id_monotone (cap : Nat) (ins : List LogInput) :
    (recordAll cap ins).map LogEntry.id = ((ins.map LogInput.now).reverse).take cap
    ∧ ((ins.map LogInput.now).Pairwise (· < ·) →
        ((recordAll cap ins).map LogEntry.id).Pairwise (· > ·)) := by
  have hids : (recordAll cap ins).map LogEntry.id
      = ((ins.map LogInput.now).reverse).take cap := by
    rw [recordAll_eq, List.map_take, List.map_reverse, List.map_map]
    have hcomp : LogEntry.id ∘ mkEntry = LogInput.now := funext fun i => rfl
    rw [hcomp]
  refine ⟨hids, fun h => ?_⟩
  rw [hids]
  have hrev : ((ins.map LogInput.now).reverse).Pairwise (· > ·) := by
    rw [List.pairwise_reverse]
    exact h
  exact hrev.sublist (List.take_sublist _ _)

/-- Closed instance of C9 amended: strictly increasing clock readings give
strictly decreasing ids along the most-recent-first snapshot. -/
theorem claim9_id_monotone_witness :
    ((recordAll 200 [⟨1000, "WEBHOOK", "TradingView", "BUY AAPL @ 150"⟩,
        ⟨1001, "EXECUTION", "Alpaca", "Filled: BUY 1 AAPL"⟩]).map LogEntry.id).Pairwise
      (· > ·) :=
  (claim9_id_monotone 200 [⟨1000, "WEBHOOK", "TradingView", "BUY AAPL @ 150"⟩,
    ⟨1001, "EXECUTION", "Alpaca", "Filled: BUY 1 AAPL"⟩]).2 (by decide)

theorem backgroundAdvisory_countP (env : PostEnv) (signal : Signal) (side : String)
    (qty : Int) :
    (backgroundAdvisory env signal side qty).countP isOrderCall = 0
    ∧ (backgroundAdvisory env signal side qty).countP isRespond = 0
    ∧ (backgroundAdvisory env signal side qty).countP (isRespondStatus 400) = 0
    ∧ (backgroundAdvisory env signal side qty).countP isExecutionLog = 0 := by
  unfold backgroundAdvisory
  cases env.accountResult <;> cases env.adviceResult <;>
    simp [isOrderCall, isRespond, isRespondStatus, isExecutionLog]

theorem backgroundAdvisory_no_respond (env : PostEnv) (signal : Signal) (side : String)
    (qty : Int) :
    ∀ e ∈ backgroundAdvisory env signal side qty, isRespond e = false := by
  unfold backgroundAdvisory
  cases env.accountResult <;> cases env.adviceResult <;> intro e he <;>
    simp at he <;> rcases he with rfl | rfl | rfl | rfl <;> rfl

theorem backgroundAdvisory_failure (env : PostEnv) (signal : Signal) (side : String)
    (qty : Int)
    (hfail : isErr env.accountResult = true ∨ isErr env.adviceResult = true) :
    (∀ e ∈ backgroundAdvisory env signal side qty, isLogWrite e = false)
    ∧ Event.consoleLog "AI Analysis Failed:" ∈ backgroundAdvisory env signal side qty := by
  unfold backgroundAdvisory
  rcases hacc : env.accountResult with eacc | acc <;>
    rcases hadv : env.adviceResult with eadv | adv
  · exact ⟨by intro e he; simp at he; rcases he with rfl | rfl <;> rfl, by simp⟩
  · exact ⟨by intro e he; simp at he; rcases he with rfl | rfl <;> rfl, by simp⟩
  · exact ⟨by intro e he; simp at he; rcases he with rfl | rfl | rfl | rfl <;> rfl, by simp⟩
  · rw [hacc, hadv] at hfail
    simp [isErr] at hfail

/-- C1: the claim fails on the code.  The `WEBHOOK` log line dereferences
`signal.action.toUpperCase()` before the validation check and outside the try
block, so a signal missing `action` crashes the handler with a TypeError and
no response at all is sent — not the claimed 400.  (The second conjunct
records that a signal missing only `ticker`, with `action` present, does get
the claimed 400 with no further events.) -/
theorem claim1_missing_action_crashes :
    webhookGate ⟨Except.ok "APPROVE", Except.ok ()⟩ ⟨some "AAPL", none, some "150", none⟩
      = [Event.consoleLog "Received Signal",
         Event.crash "TypeError: Cannot read properties of undefined"]
    ∧ (webhookGate ⟨Except.ok "APPROVE", Except.ok ()⟩
        ⟨some "AAPL", none, some "150", none⟩).countP isRespond = 0
    ∧ webhookGate ⟨Except.ok "APPROVE", Except.ok ()⟩ ⟨none, some "buy", some "150", none⟩
      = [Event.consoleLog "Received Signal",
         Event.logEvent "WEBHOOK" "TradingView" "BUY undefined @ 150",
         Event.respond 400 "Invalid payload"] := by
  refine ⟨rfl, rfl, ?_⟩
  decide

/-- C2: the claim fails on the code.  For a signal missing `action` no
`WEBHOOK` entry (indeed no log write at all) is recorded, because the message
template throws a TypeError before `addLog` runs — in both the gate and the
post-trade revisions. -/
theorem claim2_webhook_log_skipped_on_missing_action :
    (webhookGate ⟨Except.ok "APPROVE", Except.ok ()⟩
        ⟨some "AAPL", none, some "150", none⟩).countP isLogWrite = 0
    ∧ (webhookPost ⟨Except.ok (), Except.ok ⟨"1000", "500"⟩, Except.ok ⟨0⟩, Except.ok "x"⟩
        ⟨some "AAPL", none, some "150", none⟩).countP isLogWrite = 0 := by
  exact ⟨rfl, rfl⟩

/-- C3: under the pre-trade gate policy, for every valid signal with advisory
text `txt`: if the trimmed, upper-cased text contains "DENY" the handler ends
with the 200 "Trade Denied by AI" response, makes zero brokerage calls and
records no EXECUTION entry; for any other advisory text (fail-open) exactly
one brokerage order attempt is made. -/
theorem claim3_gate_deny_semantics (env : GateEnv) (signal : Signal) (t a txt : String)
    (ht : signal.ticker = some t) (ht' : t ≠ "")
    (ha : signal.action = some a) (ha' : a ≠ "")
    (hadv : env.adviceResult = Except.ok txt) :
    (jsIncludes (jsUpper (jsTrim txt)) "DENY" = true →
        (webhookGate env signal).getLast? = some (Event.respond 200 "Trade Denied by AI")
        ∧ (webhookGate env signal).countP isOrderCall = 0
        ∧ (webhookGate env signal).countP isExecutionLog = 0)
    ∧ (jsIncludes (jsUpper (jsTrim txt)) "DENY" = false →
        (webhookGate env signal).countP isOrderCall = 1) := by
  have h1 : (t == "") = false := beq_eq_false_iff_ne.mpr ht'
  have h2 : (a == "") = false := beq_eq_false_iff_ne.mpr ha'
  constructor
  · intro hd
    simp [webhookGate, ht, ha, hadv, hd, jsTruthy, jsStr, h1, h2,
      isOrderCall, isExecutionLog]
  · intro hd
    rcases hord : env.orderResult with m | u <;>
      simp [webhookGate, ht, ha, hadv, hd, hord, jsTruthy, jsStr, h1, h2, isOrderCall]

/-- Closed instance of C3: the denied signal of end-to-end scenario C makes
no brokerage call, while a fail-open verdict makes exactly one. -/
theorem claim3_gate_deny_semantics_witness :
    (webhookGate ⟨Except.ok " DENY - illiquid asset ", Except.ok ()⟩
        ⟨some "AAPL", some "buy", some "150", some 10⟩).countP isOrderCall = 0
    ∧ (webhookGate ⟨Except.ok "sounds good to me", Except.ok ()⟩
        ⟨some "AAPL", some "buy", some "150", some 10⟩).countP isOrderCall = 1 :=
  ⟨((claim3_gate_deny_semantics ⟨Except.ok " DENY - illiquid asset ", Except.ok ()⟩
      ⟨some "AAPL", some "buy", some "150", some 10⟩ "AAPL" "buy" " DENY - illiquid asset "
      rfl (by decide) rfl (by decide) rfl).1 (by decide)).2.1,
   (claim3_gate_deny_semantics ⟨Except.ok "sounds good to me", Except.ok ()⟩
      ⟨some "AAPL", some "buy", some "150", some 10⟩ "AAPL" "buy" "sounds good to me"
      rfl (by decide) rfl (by decide) rfl).2 (by decide)⟩

/-- C4: under the post-trade policy, for every valid signal whose order
submission succeeds: exactly one EXECUTION entry is recorded; the trace
splits at the single 200 "Order Executed" response with no advisory call
before it and no further response after it; and when the background step
fails (account fetch or advisory call raises) the tail contains no
activity-log write, only the diagnostic console output. -/
theorem claim4_post_trade_response_precedes_advisory (env : PostEnv) (signal : Signal)
    (t a : String)
    (ht : signal.ticker = some t) (ht' : t ≠ "")
    (ha : signal.action = some a) (ha' : a ≠ "")
    (hord : env.orderResult = Except.ok ()) :
    ∃ l₁ l₂,
      webhookPost env signal = l₁ ++ Event.respond 200 "Order Executed" :: l₂
      ∧ (webhookPost env signal).countP isExecutionLog = 1
      ∧ (∀ e ∈ l₁, isAdvisoryCall e = false)
      ∧ (∀ e ∈ l₂, isRespond e = false)
      ∧ ((isErr env.accountResult = true ∨ isErr env.adviceResult = true) →
          (∀ e ∈ l₂, isLogWrite e = false)
          ∧ Event.consoleLog "AI Analysis Failed:" ∈ l₂) := by
  have h1 : (t == "") = false := beq_eq_false_iff_ne.mpr ht'
  have h2 : (a == "") = false := beq_eq_false_iff_ne.mpr ha'
  have hmain : webhookPost env signal
      = [Event.consoleLog "Received Signal",
         Event.logEvent "WEBHOOK" "TradingView"
           (jsUpper a ++ " " ++ t ++ " @ " ++ jsStr signal.price),
         Event.brokerageOrder
           { symbol := t, qty := jsOrInt signal.contracts 1, side := jsLower a,
             type := "market", time_in_force := "day" },
         Event.logEvent "EXECUTION" "Alpaca"
           ("Filled: " ++ jsUpper (jsLower a) ++ " " ++ toString (jsOrInt signal.contracts 1)
             ++ " " ++ t)]
        ++ Event.respond 200 "Order Executed"
          :: backgroundAdvisory env signal (jsLower a) (jsOrInt signal.contracts 1) := by
    simp [webhookPost, ht, ha, hord, jsTruthy, jsStr, h1, h2]
  refine ⟨_, _, hmain, ?_, ?_, backgroundAdvisory_no_respond env signal _ _, ?_⟩
  · rw [hmain, List.countP_append]
    have hbg := (backgroundAdvisory_countP env signal (jsLower a)
      (jsOrInt signal.contracts 1)).2.2.2
    simp [List.countP_cons, isExecutionLog, hbg]
  · intro e he
    simp at he
    rcases he with rfl | rfl | rfl | rfl <;> rfl
  · intro hfail
    exact backgroundAdvisory_failure env signal _ _ hfail

/-- Closed instance of C4 with a failing background advisory step. -/
theorem claim4_post_trade_response_precedes_advisory_witness :
    ∃ l₁ l₂,
      webhookPost ⟨Except.ok (), Except.error "account fetch failed", Except.ok ⟨0⟩,
          Except.ok "advice"⟩ ⟨some "AAPL", some "buy", some "150", some 10⟩
        = l₁ ++ Event.respond 200 "Order Executed" :: l₂
      ∧ (webhookPost ⟨Except.ok (), Except.error "account fetch failed", Except.ok ⟨0⟩,
          Except.ok "advice"⟩ ⟨some "AAPL", some "buy", some "150", some 10⟩).countP
            isExecutionLog = 1
      ∧ (∀ e ∈ l₁, isAdvisoryCall e = false)
      ∧ (∀ e ∈ l₂, isRespond e = false)
      ∧ ((isErr (Except.error "account fetch failed" : Except String Account) = true
            ∨ isErr (Except.ok "advice" : Except String String) = true) →
          (∀ e ∈ l₂, isLogWrite e = false)
          ∧ Event.consoleLog "AI Analysis Failed:" ∈ l₂) :=
  claim4_post_trade_response_precedes_advisory
    ⟨Except.ok (), Except.error "account fetch failed", Except.ok ⟨0⟩, Except.ok "advice"⟩
    ⟨some "AAPL", some "buy", some "150", some 10⟩ "AAPL" "buy"
    rfl (by decide) rfl (by decide) rfl

/-- C6: under the gate policy, for every valid signal whose advisory verdict
does not deny and whose order submission raises a BrokerageError with message
`m`, the handler ends by recording an ERROR entry whose message is exactly
`m` and responding 500 with body exactly `m` (forwarded verbatim). -/
theorem claim6_brokerage_error_forwarded (env : GateEnv) (signal : Signal)
    (t a txt m : String)
    (ht : signal.ticker = some t) (ht' : t ≠ "")
    (ha : signal.action = some a) (ha' : a ≠ "")
    (hadv : env.adviceResult = Except.ok txt)
    (hdeny : jsIncludes (jsUpper (jsTrim txt)) "DENY" = false)
    (hord : env.orderResult = Except.error m) :
    webhookGate env signal
      = [Event.consoleLog "Received Signal",
         Event.logEvent "WEBHOOK" "TradingView"
           (jsUpper a ++ " " ++ t ++ " @ " ++ jsStr signal.price),
         Event.logEvent "AI_ANALYSIS" "Gemini Pro" ("Analyzing risk for " ++ t ++ "..."),
         Event.advisoryCall (gatePrompt signal),
         Event.logEvent "AI_ANALYSIS" "Gemini Pro" ("Decision: " ++ jsUpper (jsTrim txt)),
         Event.brokerageOrder
           { symbol := t, qty := jsOrInt signal.contracts 1, side := jsLower a,
             type := "market", time_in_force := "day" },
         Event.consoleLog ("Error: " ++ m),
         Event.logEvent "ERROR" "System" m,
         Event.respond 500 m] := by
  have h1 : (t == "") = false := beq_eq_false_iff_ne.mpr ht'
  have h2 : (a == "") = false := beq_eq_false_iff_ne.mpr ha'
  simp [webhookGate, ht, ha, hadv, hdeny, hord, jsTruthy, jsStr, h1, h2]

/-- Closed instance of C6: end-to-end scenario B, where the brokerage raises
"insufficient buying power". -/
theorem claim6_brokerage_error_forwarded_witness :
    webhookGate ⟨Except.ok "APPROVE", Except.error "insufficient buying power"⟩
        ⟨some "AAPL", some "buy", some "150", some 10⟩
      = [Event.consoleLog "Received Signal",
         Event.logEvent "WEBHOOK" "TradingView" (jsUpper "buy" ++ " " ++ "AAPL" ++ " @ "
           ++ jsStr (some "150")),
         Event.logEvent "AI_ANALYSIS" "Gemini Pro" ("Analyzing risk for " ++ "AAPL" ++ "..."),
         Event.advisoryCall (gatePrompt ⟨some "AAPL", some "buy", some "150", some 10⟩),
         Event.logEvent "AI_ANALYSIS" "Gemini Pro" ("Decision: " ++ jsUpper (jsTrim "APPROVE")),
         Event.brokerageOrder
           { symbol := "AAPL", qty := jsOrInt (some 10) 1, side := jsLower "buy",
             type := "market", time_in_force := "day" },
         Event.consoleLog ("Error: " ++ "insufficient buying power"),
         Event.logEvent "ERROR" "System" "insufficient buying power",
         Event.respond 500 "insufficient buying power"] :=
  claim6_brokerage_error_forwarded
    ⟨Except.ok "APPROVE", Except.error "insufficient buying power"⟩
    ⟨some "AAPL", some "buy", some "150", some 10⟩ "AAPL" "buy" "APPROVE"
    "insufficient buying power" rfl (by decide) rfl (by decide) rfl (by decide) rfl

/-- C7 counterexample: with a timestamp array of length 2 but equity and
profit-loss arrays of length 1, the output has length 2 — the timestamp
array's length — not the shorter common length 1 asserted by the claim. -/
theorem claim7_counterexample :
    (getHistoryFormatted (fun n => toString n) [1, 2] [10] [5]).length = 2
    ∧ ¬ ((getHistoryFormatted (fun n => toString n) [1, 2] [10] [5]).length
          = min ([1, 2] : List Nat).length
              (min ([10] : List Int).length ([5] : List Int).length)) := by
  constructor
  · rfl
  · decide

/-- C7 amended: the output length equals the `timestamp` array's length, and
the element at each index `i` is built from the three arrays at the same
index `i`, with `equity`/`profit_loss` equal to `none` (the JavaScript
`undefined` of an out-of-range index) when those arrays are shorter. -/
theorem claim7_history_index_aligned (fmt : Nat → String) (timestamp : List Nat)
    (equity profit_loss : List Int) :
    (getHistoryFormatted fmt timestamp equity profit_loss).length = timestamp.length
    ∧ ∀ i : Nat,
        (getHistoryFormatted fmt timestamp equity profit_loss)[i]?
          = timestamp[i]?.map fun tv =>
              { date := fmt (tv * 1000), equity := equity[i]?,
                profit_loss := profit_loss[i]? } := by
  constructor
  · simp [getHistoryFormatted]
  · intro i
    cases h : timestamp[i]? <;>
      simp [getHistoryFormatted, List.getElem?_map, List.getElem?_enum, h]

/-- C8 counterexample: a valid signal with `contracts` present and equal to 0
is submitted with quantity 1, not the claimed present-field value 0, because
the quantity is read through the JavaScript expression
`signal.contracts || 1` and 0 is falsy. -/
theorem claim8_counterexample :
    Event.brokerageOrder
        { symbol := "AAPL", qty := 1, side := "buy", type := "market",
          time_in_force := "day" }
      ∈ webhookPost ⟨Except.ok (), Except.ok ⟨"1000", "500"⟩, Except.ok ⟨0⟩, Except.ok "ok"⟩
          ⟨some "AAPL", some "buy", some "150", some 0⟩
    ∧ (webhookPost ⟨Except.ok (), Except.ok ⟨"1000", "500"⟩, Except.ok ⟨0⟩, Except.ok "ok"⟩
          ⟨some "AAPL", some "buy", some "150", some 0⟩).countP (isOrderWithQty 0) = 0 := by
  constructor
  · decide
  · rfl

/-- C8 amended: for every valid signal that proceeds to execution, the
submitted order has symbol the signal's ticker, side the lowercased action,
type market and time-in-force day; quantity equals `contracts` whenever the
field is present and nonzero (forwarded as-is, unvalidated, including
negative values), while an absent or zero `contracts` (JavaScript falsy)
yields quantity 1. -/
theorem claim8_order_fields (env : PostEnv) (signal : Signal) (t a : String)
    (ht : signal.ticker = some t) (ht' : t ≠ "")
    (ha : signal.action = some a) (ha' : a ≠ "") :
    Event.brokerageOrder
        { symbol := t, qty := jsOrInt signal.contracts 1, side := jsLower a,
          type := "market", time_in_force := "day" }
      ∈ webhookPost env signal
    ∧ (webhookPost env signal).countP isOrderCall = 1
    ∧ (∀ c : Int, signal.contracts = some c → c ≠ 0 → jsOrInt signal.contracts 1 = c)
    ∧ (signal.contracts = none ∨ signal.contracts = some 0 →
        jsOrInt signal.contracts 1 = 1) := by
  have h1 : (t == "") = false := beq_eq_false_iff_ne.mpr ht'
  have h2 : (a == "") = false := beq_eq_false_iff_ne.mpr ha'
  have hqty1 : ∀ c : Int, signal.contracts = some c → c ≠ 0 →
      jsOrInt signal.contracts 1 = c := by
    intro c hc hc0
    simp [jsOrInt, hc, hc0]
  have hqty2 : signal.contracts = none ∨ signal.contracts = some 0 →
      jsOrInt signal.contracts 1 = 1 := by
    rintro (hc | hc) <;> simp [jsOrInt, hc]
  refine ⟨?_, ?_, hqty1, hqty2⟩
  · rcases hord : env.orderResult with m | u <;>
      simp [webhookPost, ht, ha, hord, jsTruthy, jsStr, h1, h2]
  · rcases hord : env.orderResult with m | u
    · simp [webhookPost, ht, ha, hord, jsTruthy, jsStr, h1, h2, isOrderCall]
    · have hbg := (backgroundAdvisory_countP env signal (jsLower a)
        (jsOrInt signal.contracts 1)).1
      simp [webhookPost, ht, ha, hord, jsTruthy, jsStr, h1, h2, isOrderCall,
        List.countP_append, hbg]

/-- Closed instance of C8 amended: a negative `contracts` value is forwarded
as-is. -/
theorem claim8_order_fields_witness :
    Event.brokerageOrder
        { symbol := "AAPL", qty := jsOrInt (some (-5)) 1, side := jsLower "buy",
          type := "market", time_in_force := "day" }
      ∈ webhookPost ⟨Except.ok (), Except.ok ⟨"1000", "500"⟩, Except.ok ⟨0⟩, Except.ok "ok"⟩
          ⟨some "AAPL", some "buy", some "150", some (-5)⟩
    ∧ (webhookPost ⟨Except.ok (), Except.ok ⟨"1000", "500"⟩, Except.ok ⟨0⟩, Except.ok "ok"⟩
          ⟨some "AAPL", some "buy", some "150", some (-5)⟩).countP isOrderCall = 1
    ∧ (∀ c : Int, (some (-5) : Option Int) = some c → c ≠ 0 →
        jsOrInt (some (-5)) 1 = c)
    ∧ ((some (-5) : Option Int) = none ∨ (some (-5) : Option Int) = some 0 →
        jsOrInt (some (-5)) 1 = 1) :=
  claim8_order_fields
    ⟨Except.ok (), Except.ok ⟨"1000", "500"⟩, Except.ok ⟨0⟩, Except.ok "ok"⟩
    ⟨some "AAPL", some "buy", some "150", some (-5)⟩ "AAPL" "buy"
    rfl (by decide) rfl (by decide)

/-- C10: validation checks only that `ticker` and `action` are present and
non-empty (JavaScript truthiness): any non-empty action string whatsoever
passes, no 400 is issued, and the lowercased action string is forwarded
unvalidated as the order's side — the buy/sell enum of the data model is
never enforced by this system. -/
theorem claim10_action_not_validated (env : PostEnv) (signal : Signal) (t a : String)
    (ht : signal.ticker = some t) (ht' : t ≠ "")
    (ha : signal.action = some a) (ha' : a ≠ "") :
    (webhookPost env signal).countP (isRespondStatus 400) = 0
    ∧ Event.brokerageOrder
        { symbol := t, qty := jsOrInt signal.contracts 1, side := jsLower a,
          type := "market", time_in_force := "day" }
      ∈ webhookPost env signal := by
  have h1 : (t == "") = false := beq_eq_false_iff_ne.mpr ht'
  have h2 : (a == "") = false := beq_eq_false_iff_ne.mpr ha'
  constructor
  · rcases hord : env.orderResult with m | u
    · simp [webhookPost, ht, ha, hord, jsTruthy, jsStr, h1, h2, isRespondStatus]
    · have hbg := (backgroundAdvisory_countP env signal (jsLower a)
        (jsOrInt signal.contracts 1)).2.2.1
      simp [webhookPost, ht, ha, hord, jsTruthy, jsStr, h1, h2, isRespondStatus,
        List.countP_append, hbg]
  · rcases hord : env.orderResult with m | u <;>
      simp [webhookPost, ht, ha, hord, jsTruthy, jsStr, h1, h2]

/-- Closed instance of C10: the action string "HODL" (not buy or sell) passes
validation and becomes the order's side, lowercased. -/
theorem claim10_action_not_validated_witness :
    (webhookPost ⟨Except.ok (), Except.ok ⟨"1000", "500"⟩, Except.ok ⟨0⟩, Except.ok "ok"⟩
        ⟨some "DOGE", some "HODL", some "1", none⟩).countP (isRespondStatus 400) = 0
    ∧ Event.brokerageOrder
        { symbol := "DOGE", qty := jsOrInt none 1, side := jsLower "HODL",
          type := "market", time_in_force := "day" }
      ∈ webhookPost ⟨Except.ok (), Except.ok ⟨"1000", "500"⟩, Except.ok ⟨0⟩, Except.ok "ok"⟩
          ⟨some "DOGE", some "HODL", some "1", none⟩ :=
  claim10_action_not_validated
    ⟨Except.ok (), Except.ok ⟨"1000", "500"⟩, Except.ok ⟨0⟩, Except.ok "ok"⟩
    ⟨some "DOGE", some "HODL", some "1", none⟩ "DOGE" "HODL"
    rfl (by decide) rfl (by decide)

end AlgoBackend
